import Mathlib

set_option linter.unusedVariables false

/-!
Verification of the run-orchestration core of `wntr/sim/epanet22.py`
(`Epanet22Simulator`): the stage pipeline driven by `run_sim`, the status
attributes (`errcode`, `errcodelist`, `Warnflag`, `Errflag`) and the
caller-facing defaults.

The external EPANET toolkit is modelled as an oracle (`Toolkit`) supplying
the status code each stage call returns: each toolkit function is called at
most once per run, so one code per function suffices.  `run_sim` is embedded
as a pure function producing the ordered trace of issued calls (`events`),
the ordered codes those calls returned (`codes`, a ghost observation: the
Python assigns most of them to `self.errcode`, overwriting each time, and
discards the `dmnd_setmodel` one), the final attribute state, and the value
returned by the binary reader.
-/

namespace Epanet22

/-- Status codes returned by the external toolkit's stage calls for one run.
Field names follow the `toolkit` functions used in `run_sim`. -/
structure Toolkit where
  proj_open : Int
  hydr_usefile : Int
  dmnd_setmodel : Int
  hydr_solve : Int
  hydr_savefile : Int
  qual_solve : Int
  rprt_writeresults : Int
  proj_close : Int
deriving DecidableEq

/-- The status attributes of `Epanet22Simulator`: `errcode` ("Return code
from epanet-python library functions"), `errcodelist` ("Log of all error
codes"), `Warnflag` ("A warning occurred..."), `Errflag` ("A fatal error
occurred..."). -/
structure SimState where
  errcode : Int
  errcodelist : List Int
  Warnflag : Bool
  Errflag : Bool
deriving DecidableEq

/-- The class-attribute initial values: `errcode = 0`, `errcodelist = []`,
`Warnflag = False`, `Errflag = False`. -/
def initState : SimState := ⟨0, [], false, false⟩

/-- The per-instance configuration set by `__init__`: `self.mode`,
`self.pmin`, `self.pnom` (the reader is a separate argument of the
embedded `run_sim`). -/
structure Epanet22Simulator where
  mode : String
  pmin : Rat
  pnom : Rat
deriving DecidableEq

/-- Default `mode` argument of `__init__` (the source default is `'PDD'`). -/
def defaultMode : String := "PDD"

/-- Default `pmin` argument of `__init__`: the source literal `17.75`,
written as `mkRat 1775 100` so that the kernel can evaluate it (the
lemma `defaultPmin_eq` identifies it with the decimal literal). -/
def defaultPmin : Rat := mkRat 1775 100

/-- Default `pnom` argument of `__init__`: the source literal `21.96`. -/
def defaultPnom : Rat := mkRat 2196 100

/-- The fixed demand-model exponent passed by `run_sim` to
`dmnd_setmodel`: the source literal `0.5`. -/
def pddExponent : Rat := mkRat 5 10

/-- The simulator built with all `__init__` defaults. -/
def defaultSimulator : Epanet22Simulator := ⟨defaultMode, defaultPmin, defaultPnom⟩

/-- Default value of the first `run_sim` argument (the file name stem,
`'temp'` in the source). -/
def defaultFpref : String := "temp"

/-- Default `save_hyd` argument of `run_sim`. -/
def defaultSaveHyd : Bool := false

/-- Default `use_hyd` argument of `run_sim`. -/
def defaultUseHyd : Bool := false

/-- Default `hydfile` argument of `run_sim` (`None`). -/
def defaultHydfile : Option String := none

/-- One issued call of the external protocol, in the order `run_sim`
issues them, including the final `reader.read` on the output artifact. -/
inductive Event where
  | evOpen : String → String → String → Event
  | evLoadHyd : String → Event
  | evConfigDemand : Nat → Rat → Rat → Rat → Event
  | evSolveHyd : Event
  | evSaveHyd : String → Event
  | evSolveQuality : Event
  | evWriteReport : Event
  | evClose : Event
  | evRead : String → Event
deriving DecidableEq

def isOpenEv : Event → Bool
  | Event.evOpen _ _ _ => true
  | _ => false

def isLoadHydEv : Event → Bool
  | Event.evLoadHyd _ => true
  | _ => false

def isConfigEv : Event → Bool
  | Event.evConfigDemand _ _ _ _ => true
  | _ => false

def isSolveHydEv : Event → Bool
  | Event.evSolveHyd => true
  | _ => false

def isSaveHydEv : Event → Bool
  | Event.evSaveHyd _ => true
  | _ => false

def isCloseEv : Event → Bool
  | Event.evClose => true
  | _ => false

def isReadEv : Event → Bool
  | Event.evRead _ => true
  | _ => false

/-- Python `str.upper()` restricted to the ASCII strings used as mode
names (`Char.toUpper` upcases exactly the ASCII letters, as Python does
on ASCII input). -/
def pyUpper (s : String) : String := String.mk (s.data.map Char.toUpper)

/-- The hydraulics path after the `if hydfile is None:` block: the source
replaces a missing `hydfile` by the stem followed by `'.hyd'`. -/
def hydPathOf (fpref : String) : Option String → String
  | none => fpref ++ ".hyd"
  | some h => h

/-- The outcome of one `run_sim` call: the ordered issued calls, the codes
those calls returned (in order), the final attribute state, and the value
`run_sim` returns (`self.reader.read(outfile)`). -/
structure RunResult (ρ : Type) where
  events : List Event
  codes : List Int
  state : SimState
  result : ρ
deriving DecidableEq

/-- Shallow embedding of `Epanet22Simulator.run_sim`.  Faithful points:

* `proj_open` is issued inside the `if hydfile is None:` branch, together
  with the fallback-path computation; with an explicit `hydfile`, the
  source never opens the project;
* `dmnd_setmodel(ph, 1, self.pmin, self.pnom, 0.5)` is issued only on the
  `use_hyd == False` branch and only when `self.mode.upper() == 'PDD'`,
  and its return value is not assigned anywhere;
* each of the other calls is assigned to `self.errcode`, each assignment
  overwriting the previous one (`ec1 ... ec5` below are those dead
  stores; the last one, `proj_close`, survives);
* `errcodelist`, `Warnflag`, `Errflag` are never touched by `run_sim`;
* the return value is `self.reader.read(outfile)`. -/
def run_sim {ρ : Type} (reader : String → ρ) (self : Epanet22Simulator)
    (tk : Toolkit) (st : SimState) (fpref : String)
    (save_hyd : Bool) (use_hyd : Bool) (hydfile : Option String) :
    RunResult ρ :=
  let inpfile := fpref ++ ".inp"
  let rptfile := fpref ++ ".rpt"
  let outfile := fpref ++ ".bin"
  let hyd := hydPathOf fpref hydfile
  let openEvs : List Event :=
    match hydfile with
    | none => [Event.evOpen inpfile rptfile outfile]
    | some _ => []
  let openCodes : List Int :=
    match hydfile with
    | none => [tk.proj_open]
    | some _ => []
  let ec1 : Int :=
    match hydfile with
    | none => tk.proj_open
    | some _ => st.errcode
  let hydEvs : List Event :=
    if use_hyd then
      [Event.evLoadHyd hyd]
    else
      (if pyUpper self.mode = "PDD" then
        [Event.evConfigDemand 1 self.pmin self.pnom pddExponent]
      else []) ++ [Event.evSolveHyd]
  let hydCodes : List Int :=
    if use_hyd then
      [tk.hydr_usefile]
    else
      (if pyUpper self.mode = "PDD" then [tk.dmnd_setmodel] else [])
        ++ [tk.hydr_solve]
  let ec2 : Int := if use_hyd then tk.hydr_usefile else tk.hydr_solve
  let saveEvs : List Event := if save_hyd then [Event.evSaveHyd hyd] else []
  let saveCodes : List Int := if save_hyd then [tk.hydr_savefile] else []
  let ec3 : Int := if save_hyd then tk.hydr_savefile else ec2
  let ec4 : Int := tk.qual_solve
  let ec5 : Int := tk.rprt_writeresults
  let ec6 : Int := tk.proj_close
  ⟨openEvs ++ hydEvs ++ saveEvs
      ++ [Event.evSolveQuality, Event.evWriteReport, Event.evClose,
          Event.evRead outfile],
    openCodes ++ hydCodes ++ saveCodes
      ++ [tk.qual_solve, tk.rprt_writeresults, tk.proj_close],
    ⟨ec6, st.errcodelist, st.Warnflag, st.Errflag⟩,
    reader outfile⟩

end Epanet22

namespace Epanet22

/-- An all-zero toolkit oracle, for concrete runs. -/
def tkZero : Toolkit := ⟨0, 0, 0, 0, 0, 0, 0, 0⟩

/-- A toolkit whose eight stage codes are pairwise distinct, to make the
flow of status codes observable. -/
def tkDistinct : Toolkit := ⟨1, 2, 3, 4, 5, 6, 7, 8⟩

/-- A toolkit on which the hydraulic solve returns the fatal code 200 and
every other stage succeeds. -/
def tkSolveFatal : Toolkit := ⟨0, 0, 0, 200, 0, 0, 0, 0⟩

/-- A toolkit on which the hydraulic solve returns the fatal code 200 and
the quality solve returns the warning code 50. -/
def tkWarnAndFatal : Toolkit := ⟨0, 0, 0, 200, 0, 50, 0, 0⟩

example : pyUpper "pdd" = "PDD" := by decide

example : pyUpper "Pdd" = "PDD" := by decide

example : ¬ (pyUpper "DD" = "PDD") := by decide

/-- The embedded defaults agree with the source's decimal literals. -/
theorem defaultPmin_eq : defaultPmin = 17.75 := by
  norm_num [defaultPmin, Rat.mkRat_eq_divInt, Rat.divInt_eq_div]

/-- The embedded nominal-pressure default agrees with the literal 21.96. -/
theorem defaultPnom_eq : defaultPnom = 21.96 := by
  norm_num [defaultPnom, Rat.mkRat_eq_divInt, Rat.divInt_eq_div]

/-- The embedded exponent agrees with the source literal 0.5. -/
theorem pddExponent_eq : pddExponent = 0.5 := by
  norm_num [pddExponent, Rat.mkRat_eq_divInt, Rat.divInt_eq_div]

example :
    (run_sim id defaultSimulator tkZero initState "temp" false false none).events =
      [Event.evOpen "temp.inp" "temp.rpt" "temp.bin",
       Event.evConfigDemand 1 defaultPmin defaultPnom pddExponent,
       Event.evSolveHyd, Event.evSolveQuality, Event.evWriteReport,
       Event.evClose, Event.evRead "temp.bin"] := by decide

/-- The trace of issued calls, written out by branch: the Open phase is
present only when `hydfile` is `None`; the hydraulics phase is either the
load call or the optional demand-model call followed by the solve call;
then the optional save call and the fixed tail. -/
theorem run_sim_events (ρ : Type) (reader : String → ρ)
    (self : Epanet22Simulator) (tk : Toolkit) (st : SimState)
    (fpref : String) (save_hyd use_hyd : Bool) (hydfile : Option String) :
    (run_sim reader self tk st fpref save_hyd use_hyd hydfile).events =
      (match hydfile with
        | none => [Event.evOpen (fpref ++ ".inp") (fpref ++ ".rpt")
            (fpref ++ ".bin")]
        | some _ => [])
      ++ (if use_hyd then [Event.evLoadHyd (hydPathOf fpref hydfile)]
          else (if pyUpper self.mode = "PDD" then
                  [Event.evConfigDemand 1 self.pmin self.pnom pddExponent]
                else []) ++ [Event.evSolveHyd])
      ++ (if save_hyd then [Event.evSaveHyd (hydPathOf fpref hydfile)] else [])
      ++ [Event.evSolveQuality, Event.evWriteReport, Event.evClose,
          Event.evRead (fpref ++ ".bin")] := rfl

/-- The final attribute state: `errcode` holds whatever `proj_close`
returned (the last of the overwriting assignments) and the other
attributes pass through untouched. -/
theorem run_sim_state (ρ : Type) (reader : String → ρ)
    (self : Epanet22Simulator) (tk : Toolkit) (st : SimState)
    (fpref : String) (save_hyd use_hyd : Bool) (hydfile : Option String) :
    (run_sim reader self tk st fpref save_hyd use_hyd hydfile).state =
      ⟨tk.proj_close, st.errcodelist, st.Warnflag, st.Errflag⟩ := rfl

/-- The value `run_sim` returns is the reader applied to the output path. -/
theorem run_sim_result (ρ : Type) (reader : String → ρ)
    (self : Epanet22Simulator) (tk : Toolkit) (st : SimState)
    (fpref : String) (save_hyd use_hyd : Bool) (hydfile : Option String) :
    (run_sim reader self tk st fpref save_hyd use_hyd hydfile).result =
      reader (fpref ++ ".bin") := rfl

/-- C1: with an explicit `hydfile` argument the source never issues the
Open stage (`proj_open` sits inside the `if hydfile is None:` branch), so
on the fresh-solve configuration `use_hyd=False`, `hydfile='other.hyd'`
the issued sequence starts at SolveHydraulics and contains no Open call
at all, contradicting the claimed sequence Open, ..., Close. -/
theorem run_sim_no_open_with_explicit_hydfile :
    (run_sim id ⟨"DD", defaultPmin, defaultPnom⟩ tkZero initState "temp"
        false false (some "other.hyd")).events =
      [Event.evSolveHyd, Event.evSolveQuality, Event.evWriteReport,
       Event.evClose, Event.evRead "temp.bin"] := by decide

/-- C2: no stage code is ever appended to `errcodelist`.  On a run whose
seven issued calls return the pairwise-distinct codes 1, 3, 4, 5, 6, 7, 8,
the attribute `errcodelist` is still empty afterwards and `errcode` holds
only the last code; the ConfigureDemand code (3) in particular is
discarded without ever being assigned. -/
theorem run_sim_errcodelist_stays_empty :
    (run_sim id defaultSimulator tkDistinct initState defaultFpref
        true false none).codes = [1, 3, 4, 5, 6, 7, 8]
    ∧ (run_sim id defaultSimulator tkDistinct initState defaultFpref
        true false none).state.errcodelist = []
    ∧ (run_sim id defaultSimulator tkDistinct initState defaultFpref
        true false none).state.errcode = 8 := by decide

/-- C3 (counterexample): on a run where the hydraulic solve returns the
fatal code 200 and every later stage returns 0, the maximum code observed
across the run is 200 while `errcode` ends at 0 — the overall status is
not the maximum-severity code of the history. -/
theorem run_sim_errcode_not_worst_code :
    ¬ ((run_sim id defaultSimulator tkSolveFatal initState defaultFpref
          false false none).state.errcode =
        (run_sim id defaultSimulator tkSolveFatal initState defaultFpref
          false false none).codes.foldr max 0) := by decide

/-- C3 (amended): after `run_sim` the attribute `errcode` equals the code
returned by the Close stage (`proj_close`) — the last overwrite wins —
whatever codes the earlier stages returned. -/
theorem run_sim_errcode_is_close_code (ρ : Type) (reader : String → ρ)
    (self : Epanet22Simulator) (tk : Toolkit) (st : SimState)
    (fpref : String) (save_hyd use_hyd : Bool) (hydfile : Option String) :
    (run_sim reader self tk st fpref save_hyd use_hyd hydfile).state.errcode =
      tk.proj_close := rfl

/-- C4: the flags are never derived from the stage codes.  On a run whose
observed codes include the warning code 50 and the fatal code 200, both
`Warnflag` and `Errflag` are still `False` afterwards. -/
theorem run_sim_flags_never_set :
    (50 : Int) ∈ (run_sim id defaultSimulator tkWarnAndFatal initState
        defaultFpref false false none).codes
    ∧ (200 : Int) ∈ (run_sim id defaultSimulator tkWarnAndFatal initState
        defaultFpref false false none).codes
    ∧ (run_sim id defaultSimulator tkWarnAndFatal initState defaultFpref
        false false none).state.Warnflag = false
    ∧ (run_sim id defaultSimulator tkWarnAndFatal initState defaultFpref
        false false none).state.Errflag = false := by decide

/-- C5 (counterexample): the `mode` argument of `__init__` defaults to
`'PDD'`, not to the demand-driven mode, so a simulator built with all
defaults does issue the demand-model configuration call on a default
`run_sim` invocation. -/
theorem run_sim_default_mode_configures_demand :
    (run_sim id defaultSimulator tkZero initState defaultFpref
        defaultSaveHyd defaultUseHyd defaultHydfile).events.any isConfigEv
      = true := by decide

/-- C5 (amended): the caller-facing defaults are `mode='PDD'`
(pressure-dependent), `pmin=17.75`, `pnom=21.96`, file stem `'temp'`,
and a default-constructed simulator run with default arguments issues
exactly one demand-model configuration call, passing those defaults and
the fixed exponent 0.5. -/
theorem run_sim_defaults :
    defaultMode = "PDD" ∧ defaultPmin = 17.75 ∧ defaultPnom = 21.96
    ∧ defaultFpref = "temp" ∧ pddExponent = 0.5
    ∧ (run_sim id defaultSimulator tkZero initState defaultFpref
        defaultSaveHyd defaultUseHyd defaultHydfile).events.filter isConfigEv
      = [Event.evConfigDemand 1 defaultPmin defaultPnom pddExponent] := by
  refine ⟨rfl, defaultPmin_eq, defaultPnom_eq, rfl, pddExponent_eq, by decide⟩

/-- C6: on every run with `use_hyd=True`, whatever the mode string, the
demand-model configuration call and the hydraulic solve call are never
issued, and the load-hydraulics call on the resolved hydraulics path is
issued (exactly once) in their place. -/
theorem run_sim_useHyd_loads_instead_of_solving (ρ : Type)
    (reader : String → ρ) (self : Epanet22Simulator) (tk : Toolkit)
    (st : SimState) (fpref : String) (save_hyd : Bool)
    (hydfile : Option String) :
    (run_sim reader self tk st fpref save_hyd true hydfile).events.filter
        isConfigEv = []
    ∧ (run_sim reader self tk st fpref save_hyd true hydfile).events.filter
        isSolveHydEv = []
    ∧ (run_sim reader self tk st fpref save_hyd true hydfile).events.filter
        isLoadHydEv = [Event.evLoadHyd (hydPathOf fpref hydfile)] := by
  rcases hydfile with _ | h <;> cases save_hyd <;>
    simp [run_sim_events, hydPathOf, isConfigEv, isSolveHydEv, isLoadHydEv]

/-- C7: the demand-model configuration call is issued exactly when the run
solves hydraulics fresh (`use_hyd=False`) and the upper-cased mode string
is `'PDD'`; when issued it carries the model number 1, the configured
minimum and nominal pressures, and the fixed exponent 0.5; on every other
run (in particular in demand-driven mode) it is not issued at all. -/
theorem run_sim_configDemand_iff_fresh_pdd (ρ : Type) (reader : String → ρ)
    (self : Epanet22Simulator) (tk : Toolkit) (st : SimState)
    (fpref : String) (save_hyd use_hyd : Bool) (hydfile : Option String) :
    (run_sim reader self tk st fpref save_hyd use_hyd hydfile).events.filter
        isConfigEv =
      if use_hyd = false ∧ pyUpper self.mode = "PDD" then
        [Event.evConfigDemand 1 self.pmin self.pnom (0.5 : Rat)]
      else [] := by
  rcases hydfile with _ | h <;> cases save_hyd <;> cases use_hyd <;>
    by_cases hm : pyUpper self.mode = "PDD" <;>
    simp [run_sim_events, hydPathOf, isConfigEv, hm, pddExponent_eq]

/-- C8: on every run with `save_hyd=True`, whatever the other arguments
and whatever codes the stages return, the save-hydraulics call is issued
exactly once, on the resolved hydraulics path, immediately after the
hydraulics stage (the load call when `use_hyd=True`, the solve call
otherwise), and is followed by the fixed quality/report/close/read tail;
in particular `use_hyd=True` with `save_hyd=True` runs the load call and
then the save call, with no error. -/
theorem run_sim_saveHyd_once_after_hydraulics (ρ : Type)
    (reader : String → ρ) (self : Epanet22Simulator) (tk : Toolkit)
    (st : SimState) (fpref : String) (use_hyd : Bool)
    (hydfile : Option String) :
    (run_sim reader self tk st fpref true use_hyd hydfile).events.filter
        isSaveHydEv = [Event.evSaveHyd (hydPathOf fpref hydfile)]
    ∧ (run_sim reader self tk st fpref true use_hyd hydfile).events =
        ((run_sim reader self tk st fpref true use_hyd hydfile).events.takeWhile
            (fun e => !isSaveHydEv e))
          ++ Event.evSaveHyd (hydPathOf fpref hydfile)
            :: [Event.evSolveQuality, Event.evWriteReport, Event.evClose,
                Event.evRead (fpref ++ ".bin")]
    ∧ ((run_sim reader self tk st fpref true use_hyd hydfile).events.takeWhile
          (fun e => !isSaveHydEv e)).getLast? =
        some (if use_hyd then Event.evLoadHyd (hydPathOf fpref hydfile)
              else Event.evSolveHyd) := by
  rcases hydfile with _ | h <;> cases use_hyd <;>
    by_cases hm : pyUpper self.mode = "PDD" <;>
    simp [run_sim_events, hydPathOf, isSaveHydEv, hm, List.takeWhile]

/-- C9: on every run, whatever the arguments and stage codes, the Close
call is issued exactly once; the reader is invoked exactly once, on the
run's output path `fpref ++ ".bin"`, as the last issued call, right after
the Close call; and its value is what `run_sim` returns. -/
theorem run_sim_close_once_then_read (ρ : Type) (reader : String → ρ)
    (self : Epanet22Simulator) (tk : Toolkit) (st : SimState)
    (fpref : String) (save_hyd use_hyd : Bool) (hydfile : Option String) :
    (run_sim reader self tk st fpref save_hyd use_hyd hydfile).events.filter
        isCloseEv = [Event.evClose]
    ∧ (run_sim reader self tk st fpref save_hyd use_hyd hydfile).events.filter
        isReadEv = [Event.evRead (fpref ++ ".bin")]
    ∧ (run_sim reader self tk st fpref save_hyd use_hyd hydfile).events.getLast?
        = some (Event.evRead (fpref ++ ".bin"))
    ∧ ((run_sim reader self tk st fpref save_hyd use_hyd hydfile).events.dropLast).getLast?
        = some Event.evClose
    ∧ (run_sim reader self tk st fpref save_hyd use_hyd hydfile).result
        = reader (fpref ++ ".bin") := by
  rcases hydfile with _ | h <;> cases save_hyd <;> cases use_hyd <;>
    by_cases hm : pyUpper self.mode = "PDD" <;>
    simp [run_sim_events, run_sim_result, hydPathOf, isCloseEv, isReadEv, hm]

/-- C10: on every fresh-solve run (`use_hyd=False`) the demand-model
configuration call is issued exactly when the Python-style upper-casing
of the mode string equals `"PDD"` — the test is case-insensitive — and
for every other mode string the run silently proceeds on the
demand-driven path, still completing through the final read. -/
theorem run_sim_mode_test_is_upper_pdd (ρ : Type) (reader : String → ρ)
    (self : Epanet22Simulator) (tk : Toolkit) (st : SimState)
    (fpref : String) (save_hyd : Bool) (hydfile : Option String) :
    ((run_sim reader self tk st fpref save_hyd false hydfile).events.any
        isConfigEv = true ↔ pyUpper self.mode = "PDD")
    ∧ (run_sim reader self tk st fpref save_hyd false hydfile).events.getLast?
        = some (Event.evRead (fpref ++ ".bin")) := by
  rcases hydfile with _ | h <;> cases save_hyd <;>
    by_cases hm : pyUpper self.mode = "PDD" <;>
    simp [run_sim_events, hydPathOf, isConfigEv, hm]

end Epanet22
